import Mathlib

/-!
Verification development for the conversational plan-recommendation service
(`src/main.py`).  The Python source is embedded shallowly: decoded JSON values
become the inductive `JValue`, `json.loads` becomes the executable `json_loads`,
the streaming response generator `get_response` becomes a pure function from the
received content deltas to the list of yields, and the `/search` handler
`search_and_recommend` becomes a function from the request body and the external
collaborators (date parsing, model replies, retrieval hits) to an effect trace
and an outcome.
-/

/-- A decoded JSON value, as produced by Python's `json.loads`.  Numbers are
abstracted to integers whose zeroness agrees with the decoded float (integer and
fraction digits concatenated, exponent ignored); the service only ever tests
numbers for truthiness, never for their exact magnitude. -/
inductive JValue where
  | null
  | bool (b : Bool)
  | num (n : Int)
  | str (s : String)
  | arr (xs : List JValue)
  | obj (fields : List (String × JValue))

/-- Python truthiness (`bool(v)`) of a decoded JSON value. -/
def truthy : JValue → Bool
  | JValue.null => false
  | JValue.bool b => b
  | JValue.num n => n != 0
  | JValue.str s => !s.isEmpty
  | JValue.arr xs => !xs.isEmpty
  | JValue.obj fs => !fs.isEmpty

/-- Truthiness of `d.get(k)`: Python's `bool(None)` is `False`. -/
def truthyOpt : Option JValue → Bool
  | none => false
  | some v => truthy v

/-- `d.get(k)` on a decoded JSON object (keys are unique after decoding). -/
def jget : List (String × JValue) → String → Option JValue
  | [], _ => none
  | (k, v) :: fs, key => if k = key then some v else jget fs key

/-- Key insertion with overwrite, mirroring Python `dict` construction during
JSON decoding (a duplicate key keeps the last value). -/
def insertKey : List (String × JValue) → String → JValue → List (String × JValue)
  | [], k, v => [(k, v)]
  | (k0, v0) :: fs, k, v =>
    if k0 = k then (k0, v) :: fs else (k0, v0) :: insertKey fs k v

/-- JSON whitespace skipping (space, tab, newline, carriage return), as in
Python's `json` decoder. -/
def skipWs : List Char → List Char
  | [] => []
  | c :: cs =>
    if c = ' ' || c = '\t' || c = '\n' || c = '\r' then skipWs cs else c :: cs

/-- Value of a hexadecimal digit, for `\uXXXX` escapes. -/
def hexVal (c : Char) : Option Nat :=
  if '0' ≤ c ∧ c ≤ '9' then some (c.toNat - 48)
  else if 'a' ≤ c ∧ c ≤ 'f' then some (c.toNat - 87)
  else if 'A' ≤ c ∧ c ≤ 'F' then some (c.toNat - 55)
  else none

/-- Body of a JSON string (after the opening quote), with the escape sequences
accepted by Python's strict decoder; raw control characters are rejected. -/
def parseStrBody : List Char → List Char → Option (String × List Char)
  | [], _ => none
  | c :: cs, acc =>
    if c = '"' then some (String.mk acc.reverse, cs)
    else if c = '\\' then
      match cs with
      | [] => none
      | e :: cs2 =>
        if e = '"' then parseStrBody cs2 ('"' :: acc)
        else if e = '\\' then parseStrBody cs2 ('\\' :: acc)
        else if e = '/' then parseStrBody cs2 ('/' :: acc)
        else if e = 'b' then parseStrBody cs2 (Char.ofNat 8 :: acc)
        else if e = 'f' then parseStrBody cs2 (Char.ofNat 12 :: acc)
        else if e = 'n' then parseStrBody cs2 ('\n' :: acc)
        else if e = 'r' then parseStrBody cs2 ('\r' :: acc)
        else if e = 't' then parseStrBody cs2 ('\t' :: acc)
        else if e = 'u' then
          match cs2 with
          | h1 :: h2 :: h3 :: h4 :: cs3 =>
            match hexVal h1, hexVal h2, hexVal h3, hexVal h4 with
            | some a, some b, some c2, some d =>
              parseStrBody cs3 (Char.ofNat (((a * 16 + b) * 16 + c2) * 16 + d) :: acc)
            | _, _, _, _ => none
          | _ => none
        else none
    else if c.toNat < 32 then none
    else parseStrBody cs (c :: acc)

/-- Numeric value of a digit list. -/
def digitsVal (ds : List Char) : Nat :=
  ds.foldl (fun n c => n * 10 + (c.toNat - 48)) 0

/-- Longest digit run at the front of the input. -/
def takeDigits : List Char → List Char × List Char
  | [] => ([], [])
  | c :: cs =>
    if c.isDigit then
      let r := takeDigits cs
      (c :: r.1, r.2)
    else ([], c :: cs)

/-- A JSON number (RFC 8259 grammar: optional sign, no leading zeros, optional
fraction and exponent).  See `JValue` for the numeric-value abstraction. -/
def parseNum (cs0 : List Char) : Option (JValue × List Char) :=
  let p := match cs0 with
    | '-' :: t => (true, t)
    | _ => (false, cs0)
  let neg := p.1
  let cs1 := p.2
  let intPart : Option (List Char × List Char) :=
    match cs1 with
    | '0' :: t => some (['0'], t)
    | c :: t => if c.isDigit then
        let r := takeDigits t
        some (c :: r.1, r.2)
      else none
    | [] => none
  match intPart with
  | none => none
  | some (ids, cs2) =>
    let fp : Option (List Char × List Char) :=
      match cs2 with
      | '.' :: t =>
        let r := takeDigits t
        if r.1.isEmpty then none else some (r.1, r.2)
      | _ => some ([], cs2)
    match fp with
    | none => none
    | some (fds, cs3) =>
      let rest : Option (List Char) :=
        match cs3 with
        | c :: t =>
          if c = 'e' || c = 'E' then
            let t2 := match t with
              | s :: t3 => if s = '+' || s = '-' then t3 else s :: t3
              | [] => []
            let r := takeDigits t2
            if r.1.isEmpty then none else some r.2
          else some cs3
        | [] => some []
      match rest with
      | none => none
      | some r =>
        let m : Int := Int.ofNat (digitsVal (ids ++ fds))
        some (JValue.num (if neg then -m else m), r)

mutual

/-- One JSON value at the front of the input (fuel-bounded recursive descent). -/
def parseVal : Nat → List Char → Option (JValue × List Char)
  | 0, _ => none
  | f + 1, cs =>
    match cs with
    | [] => none
    | c :: rest =>
      if c = '"' then
        match parseStrBody rest [] with
        | some (s, r) => some (JValue.str s, r)
        | none => none
      else if c = '{' then parseObjItems f (skipWs rest) [] true
      else if c = '[' then parseArrItems f (skipWs rest) [] true
      else
        match cs with
        | 't' :: 'r' :: 'u' :: 'e' :: r => some (JValue.bool true, r)
        | 'f' :: 'a' :: 'l' :: 's' :: 'e' :: r => some (JValue.bool false, r)
        | 'n' :: 'u' :: 'l' :: 'l' :: r => some (JValue.null, r)
        | _ => if c = '-' || c.isDigit then parseNum cs else none

/-- Members of a JSON object; `first` is true when a closing brace may come
immediately.  Duplicate keys overwrite, as in a Python `dict`. -/
def parseObjItems : Nat → List Char → List (String × JValue) → Bool →
    Option (JValue × List Char)
  | 0, _, _, _ => none
  | f + 1, cs, acc, first =>
    match cs with
    | '}' :: rest => if first then some (JValue.obj acc, rest) else none
    | '"' :: rest =>
      match parseStrBody rest [] with
      | none => none
      | some (k, r1) =>
        match skipWs r1 with
        | ':' :: r2 =>
          match parseVal f (skipWs r2) with
          | none => none
          | some (v, r3) =>
            let acc2 := insertKey acc k v
            match skipWs r3 with
            | ',' :: r4 => parseObjItems f (skipWs r4) acc2 false
            | '}' :: r4 => some (JValue.obj acc2, r4)
            | _ => none
        | _ => none
    | _ => none

/-- Elements of a JSON array; `first` is true when a closing bracket may come
immediately. -/
def parseArrItems : Nat → List Char → List JValue → Bool →
    Option (JValue × List Char)
  | 0, _, _, _ => none
  | f + 1, cs, acc, first =>
    match cs with
    | ']' :: rest => if first then some (JValue.arr acc.reverse, rest) else none
    | _ =>
      match parseVal f cs with
      | none => none
      | some (v, r1) =>
        match skipWs r1 with
        | ',' :: r2 => parseArrItems f (skipWs r2) (v :: acc) false
        | ']' :: r2 => some (JValue.arr (v :: acc).reverse, r2)
        | _ => none

end

/-- Python's `json.loads`: one complete JSON value, with only whitespace around
it; `none` models a raised `json.JSONDecodeError`.  (The non-standard `NaN` and
`Infinity` literals Python additionally accepts are not modelled; no claim
touches them.) -/
def json_loads (s : String) : Option JValue :=
  match parseVal (4 * s.length + 8) (skipWs s.data) with
  | some (v, rest) => if (skipWs rest).isEmpty then some v else none
  | none => none


/-- Python `iter(v)` over a decoded JSON value: a string yields its characters
(as one-character strings), a list its elements, a dict its keys; `None`,
booleans and numbers are not iterable (`none` models a raised `TypeError`). -/
def pyIter : JValue → Option (List JValue)
  | JValue.str s => some (s.data.map fun c => JValue.str (String.singleton c))
  | JValue.arr xs => some xs
  | JValue.obj fs => some (fs.map fun kv => JValue.str kv.1)
  | _ => none

/-- Python `str(v)` of a decoded JSON value, as used by the f-string that
formats one history message.  Containers are abbreviated: no claim inspects
the rendering of a non-string history entry. -/
def pyStr : JValue → String
  | JValue.str s => s
  | JValue.null => "None"
  | JValue.bool true => "True"
  | JValue.bool false => "False"
  | JValue.num n => toString n
  | JValue.arr _ => "[list]"
  | JValue.obj _ => "[dict]"

/-- One content delta received from the streaming chat completion, or a
transport error raised by the stream at that point (`main.py` lines 380-396:
the error is caught and the loop falls through to the fallback). -/
inductive Chunk where
  | content (s : String)
  | error

/-- One `yield` of the response generator `get_response`:
`headerLine status item` is the framed first line
`json.dumps(\x7b"status": ..., "item": ...\x7d) + "\n"` (lines 387, 400, 403);
`piece v` is one unit yielded while iterating the parsed reply's `message`
field (line 389; for a string message, one-character strings);
`fallbackText s` is one of the two fixed fallback strings (lines 401, 404). -/
inductive Yield where
  | headerLine (status : Bool) (item : JValue)
  | piece (v : JValue)
  | fallbackText (s : String)

/-- The accumulation loop of `get_response` (lines 377-394): append each
nonempty content delta to the buffer, try `json.loads` on the whole buffer, and
on the first successful parse of an object emit the compact header and then the
iterated `message`.  A successful parse whose `message` is not iterable raises
`TypeError` *after* the header was yielded; the exception is caught by the
bare `except` and the loop continues with `first_line_sent` still false.
A non-object parse raises `AttributeError` at `parsed.get`, likewise caught.
Returns the yields together with the final value of `first_line_sent`. -/
def streamLoop : String → List Chunk → List Yield × Bool
  | _, [] => ([], false)
  | _, Chunk.error :: _ => ([], false)
  | buffer, Chunk.content s :: rest =>
    if s.isEmpty then streamLoop buffer rest
    else
      let buf := buffer ++ s
      match json_loads buf with
      | some (JValue.obj fs) =>
        let itemOpt := jget fs "item"
        let hdr := Yield.headerLine (truthyOpt itemOpt) (itemOpt.getD (JValue.arr []))
        match pyIter ((jget fs "message").getD (JValue.str "")) with
        | some pieces => (hdr :: pieces.map Yield.piece, true)
        | none =>
          let r := streamLoop buf rest
          (hdr :: r.1, r.2)
      | _ => streamLoop buf rest

/-- The response generator `get_response` (lines 366-404): the accumulation
loop, followed by the fallback block when no header/message emission completed.
The fallback compares the ambiguous count with `> 3` and emits the fixed
`\x7b"status": false, "item": []\x7d` header plus one of two fixed texts. -/
def get_response (chunks : List Chunk) (ambiguous_count : Int) : List Yield :=
  let r := streamLoop "" chunks
  if r.2 then r.1
  else
    r.1 ++
      [Yield.headerLine false (JValue.arr []),
       Yield.fallbackText
         (if ambiguous_count > 3 then "고객센터로 연결해드리겠습니다.\n"
          else "질문을 잘 알아듣지 못했어요.\n")]

/-- The profile-correction step (lines 215-220), as a function of the
completion's reply text: on a JSON object reply, adopt `userProfile` and
`eligibilityList` with field-wise defaults (the raw profile, and the literal
`['ALL']`); on a `JSONDecodeError`, fall back to the inputs; a reply that is
valid JSON but not an object raises `AttributeError` at `parsed.get`, which the
`except json.JSONDecodeError` clause does not catch (`none`). -/
def update_profile_with_gpt (content : String) (user_profile_raw : JValue)
    (eligibilityList : JValue) : Option (JValue × JValue) :=
  match json_loads content with
  | some (JValue.obj fs) =>
    some ((jget fs "userProfile").getD user_profile_raw,
          (jget fs "eligibilityList").getD (JValue.arr [JValue.str "ALL"]))
  | some _ => none
  | none => some (user_profile_raw, eligibilityList)

/-- A Python `datetime`/`date`, reduced to the fields the handler reads. -/
structure PyDate where
  year : Int
  month : Nat
  day : Nat
deriving DecidableEq

/-- Age computation of lines 151-152: whole years, decremented by one when
`(today.month, today.day) < (birthday.month, birthday.day)` under Python's
lexicographic tuple order. -/
def computeAge (today birthday : PyDate) : Int :=
  today.year - birthday.year -
    (if today.month < birthday.month ∨
        (today.month = birthday.month ∧ today.day < birthday.day)
     then 1 else 0)

/-- The bracket chain of lines 147-161: the list seeded with `"ALL"` plus the
single tag appended by the `elif` chain. -/
def eligibilityFor (age : Int) : List String :=
  ["ALL"] ++
    (if age ≤ 12 then ["KID"]
     else if age ≤ 18 then ["BOY"]
     else if age ≤ 34 then ["YOUTH"]
     else if age ≥ 65 then ["OLD"]
     else [])

/-- An unhandled Python exception escaping the handler. -/
inductive PyErr where
  | typeError
  | attributeError
  | parserError
deriving DecidableEq

/-- Lines 147-161 as a function of the profile's `birthdate` entry: a missing
or falsy value skips the block (the seeded `["ALL"]` stands); a truthy string
goes through `dateutil.parser.parse` (`dparse`; `none` models a raised
`ParserError`, which the handler does not catch); a truthy non-string raises
`TypeError` inside `parse`. -/
def classify_eligibility (dparse : String → Option PyDate) (today : PyDate)
    (birthdate : Option JValue) : Except PyErr (List String) :=
  match birthdate with
  | none => Except.ok ["ALL"]
  | some bv =>
    if truthy bv then
      match bv with
      | JValue.str s =>
        match dparse s with
        | some birth => Except.ok (eligibilityFor (computeAge today birth))
        | none => Except.error PyErr.parserError
      | _ => Except.error PyErr.typeError
    else Except.ok ["ALL"]


/-- An observable side effect of the handler, in execution order:
`historyFormat` is the `"\n".join(...)` over the history (line 145, carrying
the joined string), `birthdateParse` the `dateutil.parser.parse` call
(line 150), `gptCall` one non-streaming chat completion (the helper is invoked
at line 222 and again inside the `print` at line 226), `embedCall` the query
embedding (line 233), and `searchCall` the catalog search whose filter is
`MatchAny(any=new_eligibilityList)` (lines 238-250, carrying that filter). -/
inductive Effect where
  | historyFormat (formatted : String)
  | birthdateParse
  | gptCall
  | embedCall
  | searchCall (filter : JValue)

/-- What the `/search` handler ultimately does with a request:
the fixed non-streamed validation error of line 164, a streaming response
whose yields are given, or an unhandled exception (no well-formed response). -/
inductive Outcome where
  | validationError
  | streamed (ys : List Yield)
  | exception (e : PyErr)

/-- The body of the `JSONResponse` returned at line 164. -/
def validation_error_body : List (String × JValue) :=
  [("status", JValue.bool false),
   ("message", JValue.str "query and userProfile are required")]

/-- The external collaborators consumed by one request, as oracles:
`dparse` is `dateutil.parser.parse` (`none` = raised `ParserError`), `today`
is `datetime.today()`, `gpt_reply` the reply text of the profile-correction
completion, `hits` the payloads returned by the catalog search (the candidate
set of line 253), and `chunks` the content deltas of the streaming
completion. -/
structure Collaborators where
  dparse : String → Option PyDate
  today : PyDate
  gpt_reply : String
  hits : List JValue
  chunks : List Chunk

/-- The decoded request body, via `body.get(...)` (lines 140-144): `none`
stands for a missing key (or an explicit JSON `null` — Python cannot tell them
apart through `.get`).  `ambiguousCount` is modelled as an integer: the code
only compares it with `> 3` inside the stream generator, and a non-integer
value there would raise a `TypeError` mid-stream, which no claim exercises. -/
structure RequestBody where
  query : Option JValue
  userProfile : Option JValue
  ambiguousCount : Int
  history : Option JValue

/-- The `/search` handler `search_and_recommend` (lines 137-408), returning the
trace of effects performed together with the outcome.  Order follows the
source: the history join (line 145) and the eligibility block (lines 147-161)
run BEFORE the required-fields check of line 163; a missing or non-iterable
`history` raises `TypeError` at the join; a missing or non-dict `userProfile`
raises `AttributeError` at `user_profile_raw.get("birthdate")` (line 148); the
profile-correction helper is called twice (lines 222 and 226); the retrieved
payloads `c.hits` flow only into the prompt text (lines 253-364), never into
any validation, so the streamed yields depend only on the chunks and the
ambiguous count; the prompt build raises `AttributeError` when the adopted
profile is not a dict (lines 355-358). -/
def search_and_recommend (c : Collaborators) (b : RequestBody) :
    List Effect × Outcome :=
  match b.history.bind pyIter with
  | none => ([], Outcome.exception PyErr.typeError)
  | some msgs =>
    let formatted_history :=
      String.intercalate "\n" (msgs.map fun m => "사용자: " ++ pyStr m)
    let tr0 := [Effect.historyFormat formatted_history]
    match b.userProfile with
    | none => (tr0, Outcome.exception PyErr.attributeError)
    | some up =>
      match up with
      | JValue.obj fs =>
        let bd := jget fs "birthdate"
        let tr1 := tr0 ++ if truthyOpt bd then [Effect.birthdateParse] else []
        match classify_eligibility c.dparse c.today bd with
        | Except.error e => (tr1, Outcome.exception e)
        | Except.ok elig =>
          if !truthyOpt b.query || !truthy up then (tr1, Outcome.validationError)
          else
            match update_profile_with_gpt c.gpt_reply up
                (JValue.arr (elig.map JValue.str)) with
            | none => (tr1 ++ [Effect.gptCall], Outcome.exception PyErr.attributeError)
            | some (new_user_profile, new_eligibilityList) =>
              let tr3 := tr1 ++ [Effect.gptCall, Effect.gptCall,
                Effect.embedCall, Effect.searchCall new_eligibilityList]
              match new_user_profile with
              | JValue.obj _ =>
                (tr3, Outcome.streamed (get_response c.chunks b.ambiguousCount))
              | _ => (tr3, Outcome.exception PyErr.attributeError)
      | _ => (tr0, Outcome.exception PyErr.attributeError)

/-- The catalog record of the `/vectorize` ingestion path (lines 47-62). -/
structure Plan where
  planId : Int
  name : String
  baseDataGb : String
  dailyDataGb : String
  sharingDataGb : String
  monthlyFee : Int
  voiceCallPrice : String
  sms : String
  throttleSpeedKbps : Int
  eligibility : String
  mobileType : String
  isOnline : Int
  planUrl : String
  telecomProvider : String
  description : String

/-- The payload stored with each indexed plan (line 118):
`plan.dict(include=\x7b"planId", "name", "eligibility", "mobileType",
"isOnline"\x7d)` — note that `planUrl` is NOT among the stored fields. -/
def plan_payload (p : Plan) : List (String × JValue) :=
  [("planId", JValue.num p.planId), ("name", JValue.str p.name),
   ("eligibility", JValue.str p.eligibility),
   ("mobileType", JValue.str p.mobileType), ("isOnline", JValue.num p.isOnline)]

/-- Concrete instance of the external date-parsing oracle, used to instantiate
theorems: accepts `YYYY-MM-DD` (a format `dateutil` accepts) and rejects
everything else (inputs such as plain Korean text make `dateutil` raise). -/
def iso_parse (s : String) : Option PyDate :=
  match s.data with
  | [y1, y2, y3, y4, '-', m1, m2, '-', d1, d2] =>
    if y1.isDigit && y2.isDigit && y3.isDigit && y4.isDigit &&
        m1.isDigit && m2.isDigit && d1.isDigit && d2.isDigit then
      some ⟨Int.ofNat (digitsVal [y1, y2, y3, y4]),
            digitsVal [m1, m2], digitsVal [d1, d2]⟩
    else none
  | _ => none

/-- The string elements of a decoded JSON array (used to state membership of
eligibility tags and links without comparing whole `JValue`s). -/
def jStrings : JValue → List String
  | JValue.arr xs =>
    xs.filterMap fun x =>
      match x with
      | JValue.str s => some s
      | _ => none
  | _ => []

/-- The `link` fields of the objects in a decoded `item` list. -/
def itemLinks : JValue → List String
  | JValue.arr xs =>
    xs.filterMap fun x =>
      match x with
      | JValue.obj fs =>
        match jget fs "link" with
        | some (JValue.str s) => some s
        | _ => none
      | _ => none
  | _ => []

/-- The `planUrl` fields of a list of candidate payloads. -/
def candidateLinks (hits : List JValue) : List String :=
  hits.filterMap fun h =>
    match h with
    | JValue.obj fs =>
      match jget fs "planUrl" with
      | some (JValue.str s) => some s
      | _ => none
    | _ => none

/-- Number of header lines among the yields. -/
def countHeaders (ys : List Yield) : Nat :=
  ys.countP fun y =>
    match y with
    | Yield.headerLine _ _ => true
    | _ => false

/-- The successive buffer contents on which `get_response` attempts
`json.loads`: one entry per nonempty content delta, up to a transport error. -/
def buffersOf : String → List Chunk → List String
  | _, [] => []
  | _, Chunk.error :: _ => []
  | buf, Chunk.content s :: rest =>
    if s.isEmpty then buffersOf buf rest
    else (buf ++ s) :: buffersOf (buf ++ s) rest


theorem truthyOpt_getD (o : Option JValue) :
    truthyOpt o = truthy (o.getD (JValue.arr [])) := by
  cases o <;> rfl

theorem streamLoop_no_parse (chunks : List Chunk) : ∀ buf : String,
    (∀ b ∈ buffersOf buf chunks, json_loads b = none) →
    streamLoop buf chunks = ([], false) := by
  induction chunks with
  | nil => intro buf _; rfl
  | cons c rest ih =>
    intro buf h
    cases c with
    | error => rfl
    | content s =>
      by_cases hs : s.isEmpty
      · rw [show streamLoop buf (Chunk.content s :: rest) =
            streamLoop buf rest by simp [streamLoop, hs]]
        refine ih buf ?_
        intro b hb
        exact h b (by simpa [buffersOf, hs] using hb)
      · have hp : json_loads (buf ++ s) = none := by
          refine h (buf ++ s) ?_
          simp [buffersOf, hs]
        rw [show streamLoop buf (Chunk.content s :: rest) =
            streamLoop (buf ++ s) rest by simp [streamLoop, hs, hp]]
        refine ih (buf ++ s) ?_
        intro b hb
        refine h b ?_
        simp [buffersOf, hs]
        right
        exact hb

theorem streamLoop_header (chunks : List Chunk) :
    ∀ (buf : String) (st : Bool) (it : JValue),
      Yield.headerLine st it ∈ (streamLoop buf chunks).1 → st = truthy it := by
  induction chunks with
  | nil => intro buf st it h; simp [streamLoop] at h
  | cons c rest ih =>
    intro buf st it h
    cases c with
    | error => simp [streamLoop] at h
    | content s =>
      by_cases hs : s.isEmpty
      · rw [show streamLoop buf (Chunk.content s :: rest) =
            streamLoop buf rest by simp [streamLoop, hs]] at h
        exact ih buf st it h
      · simp only [streamLoop, hs, Bool.false_eq_true, if_false] at h
        cases hjl : json_loads (buf ++ s) with
        | none =>
          rw [hjl] at h
          exact ih (buf ++ s) st it h
        | some v =>
          cases v with
          | obj fs =>
            rw [hjl] at h
            simp only at h
            cases hpi : pyIter ((jget fs "message").getD (JValue.str "")) with
            | some pieces =>
              rw [hpi] at h
              simp only [List.mem_cons] at h
              rcases h with h | h
              · cases h
                rw [truthyOpt_getD]
              · exfalso
                rcases List.mem_map.mp h with ⟨v, _, hv⟩
                cases hv
            | none =>
              rw [hpi] at h
              simp only [List.mem_cons] at h
              rcases h with h | h
              · cases h
                rw [truthyOpt_getD]
              · exact ih (buf ++ s) st it h
          | null => rw [hjl] at h; exact ih (buf ++ s) st it h
          | bool b => rw [hjl] at h; exact ih (buf ++ s) st it h
          | num n => rw [hjl] at h; exact ih (buf ++ s) st it h
          | str s2 => rw [hjl] at h; exact ih (buf ++ s) st it h
          | arr xs => rw [hjl] at h; exact ih (buf ++ s) st it h

/-- C2: the claim says the splitter emits the header line at most once for every
fragment sequence.  The code sets `first_line_sent` only after pacing the
message, so a parsed reply whose `message` is not iterable (here `null`) yields
the header, raises `TypeError` during pacing (caught by the bare `except`), and
a later fragment that keeps the buffer parseable (a trailing space) re-emits the
header; the exhausted fallback then emits it a third time.  The code evaluated
at this failing input emits three header lines. -/
theorem C2_header_emitted_thrice :
    get_response [Chunk.content "\x7b\"message\": null\x7d", Chunk.content " "] 0 =
      [Yield.headerLine false (JValue.arr []),
       Yield.headerLine false (JValue.arr []),
       Yield.headerLine false (JValue.arr []),
       Yield.fallbackText "질문을 잘 알아듣지 못했어요.\n"] ∧
    countHeaders
      (get_response [Chunk.content "\x7b\"message\": null\x7d", Chunk.content " "] 0) = 3 :=
  ⟨rfl, rfl⟩

/-- C3 (amended): if no accumulated buffer ever parses as a complete JSON value
(stream exhaustion and mid-stream transport errors alike), the splitter emits
exactly once the header with status false and empty item followed by the
escalate-to-human message when AmbiguousCount is GREATER THAN 3 (not `>= 3` as
the claim states) and the generic not-understood message otherwise, and the
error is never propagated. -/
theorem C3_exhausted_fallback (chunks : List Chunk) (ac : Int)
    (h : ∀ b ∈ buffersOf "" chunks, json_loads b = none) :
    get_response chunks ac =
      [Yield.headerLine false (JValue.arr []),
       Yield.fallbackText
         (if ac > 3 then "고객센터로 연결해드리겠습니다.\n"
          else "질문을 잘 알아듣지 못했어요.\n")] := by
  have hsl := streamLoop_no_parse chunks "" h
  simp [get_response, hsl]

theorem C3_exhausted_fallback_w :
    get_response [Chunk.content "hi", Chunk.error] 5 =
      [Yield.headerLine false (JValue.arr []),
       Yield.fallbackText "고객센터로 연결해드리겠습니다.\n"] := by
  have h : ∀ b ∈ buffersOf "" [Chunk.content "hi", Chunk.error],
      json_loads b = none := by
    intro b hb
    have he : buffersOf "" [Chunk.content "hi", Chunk.error] = ["hi"] := rfl
    rw [he, List.mem_singleton] at hb
    subst hb
    rfl
  have hc := C3_exhausted_fallback [Chunk.content "hi", Chunk.error] 5 h
  rw [hc]
  norm_num

/-- C3 (counterexample): at AmbiguousCount exactly 3 the claim demands the
escalate-to-human message, but the code's comparison is `ambiguous_count > 3`,
so an exhausted stream at count 3 produces the generic not-understood text. -/
theorem C3_threshold_cex :
    get_response [] 3 =
      [Yield.headerLine false (JValue.arr []),
       Yield.fallbackText "질문을 잘 알아듣지 못했어요.\n"] ∧
    "질문을 잘 알아듣지 못했어요.\n" ≠ "고객센터로 연결해드리겠습니다.\n" :=
  ⟨rfl, by decide⟩

/-- C9 (amended): every header line the stream splitter emits (first-parse
header and fallback header alike) carries `status = truthy item`; hence when
the status is false and the item is a list, the list is empty.  The validation
error response carries status false and no item field at all.  (The claim as
stated — status false implies the item LIST is empty — fails when the untrusted
generator supplies a non-list falsy `item`, see the counterexample.) -/
theorem C9_status_false_item_empty :
    (∀ (chunks : List Chunk) (ac : Int) (st : Bool) (it : JValue),
        Yield.headerLine st it ∈ get_response chunks ac →
          st = truthy it ∧
          (st = false → ∀ xs : List JValue, it = JValue.arr xs → xs = [])) ∧
    jget validation_error_body "item" = none ∧
    jget validation_error_body "status" = some (JValue.bool false) := by
  refine ⟨?_, rfl, rfl⟩
  intro chunks ac st it hm
  have hst : st = truthy it := by
    unfold get_response at hm
    by_cases h2 : (streamLoop "" chunks).2
    · rw [if_pos h2] at hm
      exact streamLoop_header chunks "" st it hm
    · rw [if_neg h2, List.mem_append] at hm
      rcases hm with hm | hm
      · exact streamLoop_header chunks "" st it hm
      · simp only [List.mem_cons, List.not_mem_nil, or_false] at hm
        rcases hm with hm | hm
        · cases hm; rfl
        · cases hm
  refine ⟨hst, ?_⟩
  intro hfalse xs hxs
  rw [hxs] at hst
  rw [hfalse] at hst
  have : xs.isEmpty = true := by
    by_contra hne
    simp [truthy, hne] at hst
  exact List.isEmpty_iff.mp this

/-- C9 (counterexample): the generator can return `"item": false`; the splitter
then emits a header with status false whose item is the Boolean `false`, which
is not an empty list (not a list at all), so the claim as stated fails. -/
theorem C9_nonlist_item_cex :
    get_response [Chunk.content "\x7b\"item\": false, \"message\": \"m\"\x7d"] 0 =
      [Yield.headerLine false (JValue.bool false), Yield.piece (JValue.str "m")] ∧
    JValue.bool false ≠ JValue.arr [] :=
  ⟨rfl, fun h => JValue.noConfusion h⟩

theorem C9_status_false_item_empty_w :
    false = truthy (JValue.bool false) := by
  have he : get_response [Chunk.content "\x7b\"item\": false, \"message\": \"m\"\x7d"] 0 =
      [Yield.headerLine false (JValue.bool false), Yield.piece (JValue.str "m")] := rfl
  have hm : Yield.headerLine false (JValue.bool false) ∈
      get_response [Chunk.content "\x7b\"item\": false, \"message\": \"m\"\x7d"] 0 := by
    rw [he]
    exact List.mem_cons_self _ _
  exact (C9_status_false_item_empty.1 _ 0 false (JValue.bool false) hm).1

/-- C5: the classifier computes age as year difference, decremented exactly
when the (month, day) pair precedes the birthday's under lexicographic order,
and adds exactly one bracket tag beyond ALL or none: age ≤ 12 KID, 13-18 BOY,
19-34 YOUTH, ≥ 65 OLD, 35-64 nothing; boundary values 12, 13, 34, 35, 64, 65
behave as claimed. -/
theorem C5_age_brackets :
    (∀ today birth : PyDate,
        (¬ (today.month < birth.month ∨
            (today.month = birth.month ∧ today.day < birth.day)) →
          computeAge today birth = today.year - birth.year) ∧
        ((today.month < birth.month ∨
            (today.month = birth.month ∧ today.day < birth.day)) →
          computeAge today birth = today.year - birth.year - 1)) ∧
    (∀ age : Int,
        "ALL" ∈ eligibilityFor age ∧
        (eligibilityFor age).length ≤ 2 ∧
        ("KID" ∈ eligibilityFor age ↔ age ≤ 12) ∧
        ("BOY" ∈ eligibilityFor age ↔ 13 ≤ age ∧ age ≤ 18) ∧
        ("YOUTH" ∈ eligibilityFor age ↔ 19 ≤ age ∧ age ≤ 34) ∧
        ("OLD" ∈ eligibilityFor age ↔ 65 ≤ age)) ∧
    eligibilityFor 12 = ["ALL", "KID"] ∧
    eligibilityFor 13 = ["ALL", "BOY"] ∧
    eligibilityFor 34 = ["ALL", "YOUTH"] ∧
    eligibilityFor 35 = ["ALL"] ∧
    eligibilityFor 64 = ["ALL"] ∧
    eligibilityFor 65 = ["ALL", "OLD"] := by
  refine ⟨?_, ?_, rfl, rfl, rfl, rfl, rfl, rfl⟩
  · intro today birth
    constructor
    · intro h; simp [computeAge, h]
    · intro h; simp [computeAge, h]
  · intro age
    unfold eligibilityFor
    split_ifs with h1 h2 h3 h4 <;>
      refine ⟨by simp, by simp, ?_, ?_, ?_, ?_⟩ <;> simp <;> omega

theorem C5_age_brackets_w :
    computeAge ⟨2026, 10, 12⟩ ⟨2014, 1, 2⟩ = 2026 - 2014 ∧
    "KID" ∈ eligibilityFor 12 := by
  constructor
  · exact (C5_age_brackets.1 ⟨2026, 10, 12⟩ ⟨2014, 1, 2⟩).1 (by norm_num)
  · exact (C5_age_brackets.2.1 12).2.2.1.mpr (by norm_num)

/-- C6 (amended): a missing or falsy (empty) birthdate yields exactly
`["ALL"]` with no error, but a present, truthy, unparseable birthdate makes
`dateutil.parser.parse` raise (uncaught), so the request fails with an
unhandled exception instead of defaulting to `["ALL"]`; a truthy non-string
birthdate likewise raises. -/
theorem C6_default_all :
    (∀ (dparse : String → Option PyDate) (today : PyDate),
        classify_eligibility dparse today none = Except.ok ["ALL"]) ∧
    (∀ (dparse : String → Option PyDate) (today : PyDate) (v : JValue),
        truthy v = false →
        classify_eligibility dparse today (some v) = Except.ok ["ALL"]) ∧
    (∀ (dparse : String → Option PyDate) (today : PyDate) (s : String),
        s ≠ "" → dparse s = none →
        classify_eligibility dparse today (some (JValue.str s)) =
          Except.error PyErr.parserError) ∧
    (∀ (c : Collaborators) (b : RequestBody) (hv : JValue) (msgs : List JValue)
        (fs : List (String × JValue)) (s : String),
        b.history = some hv → pyIter hv = some msgs →
        b.userProfile = some (JValue.obj fs) →
        jget fs "birthdate" = some (JValue.str s) → s ≠ "" →
        c.dparse s = none →
        (search_and_recommend c b).2 = Outcome.exception PyErr.parserError) := by
  refine ⟨fun _ _ => rfl, ?_, ?_, ?_⟩
  · intro dparse today v hv
    simp [classify_eligibility, hv]
  · intro dparse today s hs hp
    have hne : s.isEmpty = false := by
      rw [← Bool.not_eq_true, String.isEmpty_iff]
      exact hs
    simp [classify_eligibility, truthy, hne, hp]
  · intro c b hv msgs fs s hh hi hu hbd hs hp
    have hne : s.isEmpty = false := by
      rw [← Bool.not_eq_true, String.isEmpty_iff]
      exact hs
    have hiter : b.history.bind pyIter = some msgs := by
      rw [hh]
      simpa using hi
    simp [search_and_recommend, hiter, hu, hbd, truthyOpt, truthy, hne,
      classify_eligibility, hp]

theorem C6_default_all_w :
    classify_eligibility iso_parse ⟨2026, 10, 12⟩ none = Except.ok ["ALL"] ∧
    classify_eligibility iso_parse ⟨2026, 10, 12⟩ (some (JValue.str "")) =
      Except.ok ["ALL"] ∧
    classify_eligibility iso_parse ⟨2026, 10, 12⟩ (some (JValue.str "모름")) =
      Except.error PyErr.parserError ∧
    (search_and_recommend ⟨iso_parse, ⟨2026, 10, 12⟩, "", [], []⟩
        ⟨some (JValue.str "추천"), some (JValue.obj [("birthdate", JValue.str "모름")]),
         0, some (JValue.arr [])⟩).2 = Outcome.exception PyErr.parserError := by
  refine ⟨C6_default_all.1 iso_parse _, C6_default_all.2.1 iso_parse _ _ rfl, ?_, ?_⟩
  · exact C6_default_all.2.2.1 iso_parse _ "모름" (by decide) rfl
  · exact C6_default_all.2.2.2 _ _ (JValue.arr []) [] _ "모름" rfl rfl rfl rfl
      (by decide) rfl

/-- C6 (counterexample): at a concrete request whose birthdate is the
unparseable string "모름", the handler raises (after the date-parse attempt)
instead of classifying the request as `["ALL"]`. -/
theorem C6_unparseable_cex :
    search_and_recommend ⟨iso_parse, ⟨2026, 10, 12⟩, "", [], []⟩
      ⟨some (JValue.str "추천"), some (JValue.obj [("birthdate", JValue.str "모름")]),
       0, some (JValue.arr [])⟩ =
      ([Effect.historyFormat "", Effect.birthdateParse],
       Outcome.exception PyErr.parserError) := rfl

/-- C7 (amended): the profile-correction step never re-adds `ALL`: when the
reply parses as a JSON object, the adopted eligibility list is the reply's
`eligibilityList` value verbatim whenever the key is present (even if it omits
`ALL`); the literal `['ALL']` appears only as the default for a missing key,
and the seed list only on a JSON decode failure. -/
theorem C7_no_all_reassertion :
    (∀ (content : String) (up el l : JValue) (fs : List (String × JValue)),
        json_loads content = some (JValue.obj fs) →
        jget fs "eligibilityList" = some l →
        update_profile_with_gpt content up el =
          some ((jget fs "userProfile").getD up, l)) ∧
    (∀ (content : String) (up el : JValue) (fs : List (String × JValue)),
        json_loads content = some (JValue.obj fs) →
        jget fs "eligibilityList" = none →
        update_profile_with_gpt content up el =
          some ((jget fs "userProfile").getD up, JValue.arr [JValue.str "ALL"])) ∧
    (∀ (content : String) (up el : JValue),
        json_loads content = none →
        update_profile_with_gpt content up el = some (up, el)) := by
  refine ⟨?_, ?_, ?_⟩
  · intro content up el l fs hp hl
    simp [update_profile_with_gpt, hp, hl]
  · intro content up el fs hp hl
    simp [update_profile_with_gpt, hp, hl]
  · intro content up el hp
    simp [update_profile_with_gpt, hp]

/-- C7 (counterexample): a parsed reply whose `eligibilityList` is `["OLD"]`
is adopted as-is; the adopted list does not contain `ALL`. -/
theorem C7_omits_all_cex :
    update_profile_with_gpt "\x7b\"eligibilityList\": [\"OLD\"]\x7d"
      (JValue.obj []) (JValue.arr [JValue.str "ALL"]) =
      some (JValue.obj [], JValue.arr [JValue.str "OLD"]) ∧
    "ALL" ∉ jStrings (JValue.arr [JValue.str "OLD"]) :=
  ⟨rfl, by decide⟩

theorem C7_no_all_reassertion_w :
    update_profile_with_gpt
      "\x7b\"eligibilityList\": [\"OLD\"], \"userProfile\": \x7b\x7d\x7d"
      (JValue.obj [("a", JValue.null)]) (JValue.arr [JValue.str "ALL"]) =
      some (JValue.obj [], JValue.arr [JValue.str "OLD"]) :=
  C7_no_all_reassertion.1
    "\x7b\"eligibilityList\": [\"OLD\"], \"userProfile\": \x7b\x7d\x7d"
    (JValue.obj [("a", JValue.null)]) (JValue.arr [JValue.str "ALL"])
    (JValue.arr [JValue.str "OLD"])
    [("eligibilityList", JValue.arr [JValue.str "OLD"]), ("userProfile", JValue.obj [])]
    rfl rfl

/-- C10: a request body without a `history` field makes the handler raise
`TypeError` at the history join (line 145), before the query/userProfile
validation of line 163 can run, whatever the other fields hold: no effect is
performed and no well-formed response (validation error included) is produced,
so `history` is a de-facto required field. -/
theorem C10_missing_history (c : Collaborators) (b : RequestBody)
    (h : b.history = none) :
    search_and_recommend c b = ([], Outcome.exception PyErr.typeError) := by
  simp [search_and_recommend, h]

theorem C10_missing_history_w :
    search_and_recommend ⟨iso_parse, ⟨2026, 10, 12⟩, "", [], []⟩
      ⟨some (JValue.str "추천"), some (JValue.obj []), 0, none⟩ =
      ([], Outcome.exception PyErr.typeError) :=
  C10_missing_history _ _ rfl

/-- C4: the claim demands an immediate validation error with no partial work
whenever query or userProfile is missing.  The code evaluated at the failing
inputs: with userProfile missing (first conjunct) the handler formats the
history and then raises `AttributeError` at `user_profile_raw.get("birthdate")`
(line 148) before the required-fields check of line 163, so the documented
error response is never produced; with query missing (second conjunct) the
validation error is produced, but only after the history join and the birthdate
parse have already run. -/
theorem C4_validation_not_immediate :
    search_and_recommend ⟨iso_parse, ⟨2026, 10, 12⟩, "", [], []⟩
      ⟨some (JValue.str "요금제 추천해줘"), none, 0,
       some (JValue.arr [JValue.str "hi"])⟩ =
      ([Effect.historyFormat "사용자: hi"], Outcome.exception PyErr.attributeError) ∧
    search_and_recommend ⟨iso_parse, ⟨2026, 10, 12⟩, "", [], []⟩
      ⟨none, some (JValue.obj [("birthdate", JValue.str "2014-01-02")]), 0,
       some (JValue.arr [JValue.str "hi"])⟩ =
      ([Effect.historyFormat "사용자: hi", Effect.birthdateParse],
       Outcome.validationError) :=
  ⟨rfl, rfl⟩

/-- C1 (amended): the core performs no link validation at all: the streamed
result is computed without reference to the candidate set (identical retrieval
hits or not, the handler's behavior is unchanged — the payloads flow only into
the prompt text given to the untrusted generator), and the stored candidate
payloads do not even contain a `planUrl` field, so a traceability check against
them would be impossible; consequently an `item` link is whatever the
generative reply contains. -/
theorem C1_no_link_validation :
    (∀ (dp : String → Option PyDate) (today : PyDate) (reply : String)
        (hits1 hits2 : List JValue) (chunks : List Chunk) (b : RequestBody),
        search_and_recommend ⟨dp, today, reply, hits1, chunks⟩ b =
          search_and_recommend ⟨dp, today, reply, hits2, chunks⟩ b) ∧
    (∀ p : Plan, jget (plan_payload p) "planUrl" = none) :=
  ⟨fun _ _ _ _ _ _ _ => rfl, fun _ => rfl⟩

/-- C1 (counterexample): with an empty candidate set, a generative reply whose
item links to an unlisted URL is forwarded verbatim: the emitted header
contains the link `https://evil.example/x` although no candidate has it as
`planUrl`. -/
theorem C1_unlisted_link_cex :
    search_and_recommend
      ⟨iso_parse, ⟨2026, 10, 12⟩, "not json", [],
       [Chunk.content
         "\x7b\"status\": true, \"item\": [\x7b\"name\": \"A\", \"link\": \"https://evil.example/x\"\x7d], \"message\": \"m\"\x7d"]⟩
      ⟨some (JValue.str "추천해줘"), some (JValue.obj [("planName", JValue.str "5G")]),
       0, some (JValue.arr [])⟩ =
      ([Effect.historyFormat "", Effect.gptCall, Effect.gptCall, Effect.embedCall,
        Effect.searchCall (JValue.arr [JValue.str "ALL"])],
       Outcome.streamed
         [Yield.headerLine true
            (JValue.arr [JValue.obj
              [("name", JValue.str "A"), ("link", JValue.str "https://evil.example/x")]]),
          Yield.piece (JValue.str "m")]) ∧
    "https://evil.example/x" ∈ itemLinks
      (JValue.arr [JValue.obj
        [("name", JValue.str "A"), ("link", JValue.str "https://evil.example/x")]]) ∧
    candidateLinks ([] : List JValue) = [] :=
  ⟨rfl, by decide, rfl⟩

/-- C8 (amended): a profile-correction reply of the terminal refusal shape is
NOT returned to the caller and does not bypass retrieval: lines 215-220 only
read `userProfile` and `eligibilityList` from the parsed reply (the terminal
shape has neither key, so the raw profile and the literal `['ALL']` are
adopted), and the pipeline proceeds to the embedding call and the catalog
search, then streams the main generative call's output. -/
theorem C8_no_short_circuit (c : Collaborators) (b : RequestBody)
    (hv : JValue) (msgs : List JValue) (fs rf : List (String × JValue))
    (elig : List String)
    (hh : b.history = some hv) (hi : pyIter hv = some msgs)
    (hu : b.userProfile = some (JValue.obj fs))
    (hq : truthyOpt b.query = true) (hnf : fs ≠ [])
    (helig : classify_eligibility c.dparse c.today (jget fs "birthdate") =
      Except.ok elig)
    (hr : json_loads c.gpt_reply = some (JValue.obj rf))
    (hup : jget rf "userProfile" = none) :
    Effect.embedCall ∈ (search_and_recommend c b).1 ∧
    (∃ flt, Effect.searchCall flt ∈ (search_and_recommend c b).1) ∧
    (search_and_recommend c b).2 =
      Outcome.streamed (get_response c.chunks b.ambiguousCount) := by
  have hiter : b.history.bind pyIter = some msgs := by
    rw [hh]
    simpa using hi
  have hfe : fs.isEmpty = false := by
    rw [← Bool.not_eq_true, List.isEmpty_iff]
    exact hnf
  have hupd : update_profile_with_gpt c.gpt_reply (JValue.obj fs)
      (JValue.arr (elig.map JValue.str)) =
      some (JValue.obj fs,
        (jget rf "eligibilityList").getD (JValue.arr [JValue.str "ALL"])) := by
    simp [update_profile_with_gpt, hr, hup]
  simp [search_and_recommend, hiter, hu, helig, hq, truthy, hfe, hupd]

/-- C8 (counterexample): a reply with exactly the terminal refusal shape does
not short-circuit: retrieval (embedding + catalog search) still runs, and the
streamed answer is the main generative stream's output (here the exhausted
fallback), not the refusal's message. -/
theorem C8_terminal_shape_cex :
    search_and_recommend
      ⟨iso_parse, ⟨2026, 10, 12⟩,
       "\x7b\"status\": false, \"item\": [], \"message\": \"안녕하세요\"\x7d", [], []⟩
      ⟨some (JValue.str "안녕"), some (JValue.obj [("planName", JValue.str "5G")]),
       0, some (JValue.arr [])⟩ =
      ([Effect.historyFormat "", Effect.gptCall, Effect.gptCall, Effect.embedCall,
        Effect.searchCall (JValue.arr [JValue.str "ALL"])],
       Outcome.streamed
         [Yield.headerLine false (JValue.arr []),
          Yield.fallbackText "질문을 잘 알아듣지 못했어요.\n"]) ∧
    Effect.embedCall ∈
      (search_and_recommend
        ⟨iso_parse, ⟨2026, 10, 12⟩,
         "\x7b\"status\": false, \"item\": [], \"message\": \"안녕하세요\"\x7d", [], []⟩
        ⟨some (JValue.str "안녕"), some (JValue.obj [("planName", JValue.str "5G")]),
         0, some (JValue.arr [])⟩).1 := by
  constructor
  · rfl
  · rw [show (search_and_recommend
        ⟨iso_parse, ⟨2026, 10, 12⟩,
         "\x7b\"status\": false, \"item\": [], \"message\": \"안녕하세요\"\x7d", [], []⟩
        ⟨some (JValue.str "안녕"), some (JValue.obj [("planName", JValue.str "5G")]),
         0, some (JValue.arr [])⟩).1 =
      [Effect.historyFormat "", Effect.gptCall, Effect.gptCall, Effect.embedCall,
       Effect.searchCall (JValue.arr [JValue.str "ALL"])] from rfl]
    simp

theorem C8_no_short_circuit_w :
    Effect.embedCall ∈
      (search_and_recommend
        ⟨iso_parse, ⟨2026, 10, 12⟩,
         "\x7b\"status\": false, \"item\": [], \"message\": \"하이\"\x7d", [], []⟩
        ⟨some (JValue.str "하이"), some (JValue.obj [("planName", JValue.str "5G")]),
         1, some (JValue.arr [JValue.str "hi"])⟩).1 ∧
    (search_and_recommend
      ⟨iso_parse, ⟨2026, 10, 12⟩,
       "\x7b\"status\": false, \"item\": [], \"message\": \"하이\"\x7d", [], []⟩
      ⟨some (JValue.str "하이"), some (JValue.obj [("planName", JValue.str "5G")]),
       1, some (JValue.arr [JValue.str "hi"])⟩).2 =
      Outcome.streamed (get_response [] 1) := by
  have h := C8_no_short_circuit
    ⟨iso_parse, ⟨2026, 10, 12⟩,
     "\x7b\"status\": false, \"item\": [], \"message\": \"하이\"\x7d", [], []⟩
    ⟨some (JValue.str "하이"), some (JValue.obj [("planName", JValue.str "5G")]),
     1, some (JValue.arr [JValue.str "hi"])⟩
    (JValue.arr [JValue.str "hi"]) [JValue.str "hi"]
    [("planName", JValue.str "5G")]
    [("status", JValue.bool false), ("item", JValue.arr []),
     ("message", JValue.str "하이")]
    ["ALL"] rfl rfl rfl rfl (List.cons_ne_nil _ _) rfl rfl rfl
  exact ⟨h.1, h.2.2⟩
